import Mathlib

/-!
Shallow embedding of the type declarations of the delivery/order-management
frontend (files `courses.d.ts`, `api.d.ts`, `forms.ts`, `filters.ts` and the
auth types).  TypeScript `number` is modelled as `ℚ`, `string` as `String`,
`T | null` as `Option T`, and an optional field `x?: T` as `Option T` whose
`none` stands for the absent key.  An optional nullable field `x?: T | null`
is `Option (Option T)`.  Each record type becomes a Lean structure with the
same field names, in declaration order.

To reason about the wire shape (which fields a record carries and whether a
field can be null/absent), each relevant record gets a canonical JSON
encoding into the `JValue` inductive below, with one key per field, in
declaration order, mirroring the TypeScript declaration.
-/

/-- A JSON value: the wire form described by the TypeScript declarations. -/
inductive JValue where
  | null : JValue
  | bool (b : Bool) : JValue
  | num (q : ℚ) : JValue
  | str (s : String) : JValue
  | arr (xs : List JValue) : JValue
  | obj (fields : List (String × JValue)) : JValue
deriving Repr

/-- The keys of a JSON object (empty for non-objects). -/
def JValue.keys : JValue → List String
  | .obj l => l.map Prod.fst
  | _ => []

/-- Field lookup in a JSON object (none for non-objects or absent keys). -/
def JValue.get (k : String) : JValue → Option JValue
  | .obj l => l.lookup k
  | _ => none

/-- Encode a `T | null` field: present, `null` when the option is none. -/
def jnullable (f : α → JValue) : Option α → JValue
  | none => .null
  | some a => f a

/-- Encode an optional field `x?: T`: the key is absent when none. -/
def optField (name : String) (f : α → JValue) : Option α → List (String × JValue)
  | none => []
  | some a => [(name, f a)]

-- ## courses.d.ts

structure Familia where
  id : ℚ
  nome : String
  descricao : Option String
  ativo : Bool
  created_at : String
  total_produtos : ℚ

/-- The inline record `{ id; nome; descricao }` nested in `Produto.familia`. -/
structure FamiliaRef where
  id : ℚ
  nome : String
  descricao : Option String

structure Produto where
  id : ℚ
  nome : String
  peso : ℚ
  volume : Option ℚ
  familia : FamiliaRef
  ativo : Bool
  created_at : String

structure ProdutoSimple where
  id : ℚ
  nome : String
  peso : ℚ
  volume : Option ℚ
  familia_nome : String

structure ProdutoPedido where
  id : ℚ
  produto : ProdutoSimple
  quantidade : ℚ
  peso_total : ℚ

/-- The inline record `{ id; name; email }` nested in `Pedido.usuario`. -/
structure UsuarioRef where
  id : ℚ
  name : String
  email : String

structure Pedido where
  id : ℚ
  usuario : Option UsuarioRef
  nf : ℚ
  observacao : Option String
  dtpedido : String
  latitude : ℚ
  longitude : ℚ
  created_at : String
  itens : List ProdutoPedido
  peso_total : ℚ
  volume_total : ℚ
  total_itens : ℚ

structure PedidoSimple where
  id : ℚ
  nf : ℚ
  dtpedido : String
  latitude : ℚ
  longitude : ℚ
  usuario_nome : Option String
  observacao : Option String

inductive RotaStatus where
  | PLANEJADA : RotaStatus
  | EM_EXECUCAO : RotaStatus
  | CONCLUIDA : RotaStatus
deriving Repr, DecidableEq

structure RotaTrajeto where
  id : ℚ
  latitude : ℚ
  longitude : ℚ
  datahora : String

structure RotaPedido where
  id : ℚ
  pedido : PedidoSimple
  ordem_entrega : ℚ
  entregue : Bool
  data_entrega : Option String

structure Rota where
  id : ℚ
  data_rota : String
  capacidade_max : ℚ
  status : RotaStatus
  created_at : String
  updated_at : String
  pedidos : List RotaPedido
  trajetos : List RotaTrajeto
  peso_total_pedidos : ℚ
  total_pedidos : ℚ
  pedidos_entregues : ℚ
  percentual_entrega : ℚ

structure RotaSimple where
  id : ℚ
  data_rota : String
  capacidade_max : ℚ
  status : RotaStatus
  total_pedidos : ℚ
  peso_total : ℚ

/-- C1: every `RotaStatus` (hence the `status` field of every `Rota` and
`RotaSimple`) is one of exactly the three enumerated values `PLANEJADA`,
`EM_EXECUCAO`, `CONCLUIDA`; no fourth status value is representable. -/
theorem rotaStatus_exactly_three :
    (∀ s : RotaStatus,
      s = RotaStatus.PLANEJADA ∨ s = RotaStatus.EM_EXECUCAO ∨ s = RotaStatus.CONCLUIDA) ∧
    (∀ r : Rota,
      r.status = RotaStatus.PLANEJADA ∨ r.status = RotaStatus.EM_EXECUCAO ∨
        r.status = RotaStatus.CONCLUIDA) ∧
    (∀ r : RotaSimple,
      r.status = RotaStatus.PLANEJADA ∨ r.status = RotaStatus.EM_EXECUCAO ∨
        r.status = RotaStatus.CONCLUIDA) := by
  refine ⟨fun s => ?_, fun r => ?_, fun r => ?_⟩
  · cases s <;> simp
  · cases h : r.status <;> simp
  · cases h : r.status <;> simp

-- ## API response envelopes (courses.d.ts)

structure APIGetFamiliasResponse where
  results : List Familia
  count : ℚ
  next : Option String
  previous : Option String

structure APIGetProdutosResponse where
  results : List Produto
  count : ℚ
  next : Option String
  previous : Option String

structure APIGetPedidosResponse where
  results : List Pedido
  count : ℚ
  next : Option String
  previous : Option String

structure APIGetRotasResponse where
  results : List Rota
  count : ℚ
  next : Option String
  previous : Option String

-- ## api.d.ts

structure APIError where
  success : { b : Bool // b = false }
  detail : Option String
  code : Option String

-- ## forms.ts

/-- The inline record `{ produto_id; quantidade }` of `PedidoCreatePayload.itens`. -/
structure ItemCreate where
  produto_id : ℚ
  quantidade : ℚ

structure PedidoCreatePayload where
  usuario_id : Option (Option ℚ)
  nf : ℚ
  observacao : Option (Option String)
  dtpedido : String
  latitude : ℚ
  longitude : ℚ
  itens : List ItemCreate

structure RotaCreatePayload where
  data_rota : String
  capacidade_max : ℚ
  status : Option RotaStatus
  pedidos_ids : Option (List ℚ)

-- ## auth types (unnamed source file)

structure User where
  id : ℚ
  name : String
  email : String

structure APISignInResponse where
  user : User
  access_token : String

structure APISignUpResponse where
  user : User
  access_token : String

-- ## JSON encoders, one key per declared field, in declaration order

def RotaStatus.toStr : RotaStatus → String
  | .PLANEJADA => "PLANEJADA"
  | .EM_EXECUCAO => "EM_EXECUCAO"
  | .CONCLUIDA => "CONCLUIDA"

def encodeFamiliaRef (f : FamiliaRef) : JValue :=
  .obj [("id", .num f.id), ("nome", .str f.nome),
        ("descricao", jnullable .str f.descricao)]

def encodeProduto (p : Produto) : JValue :=
  .obj [("id", .num p.id), ("nome", .str p.nome), ("peso", .num p.peso),
        ("volume", jnullable .num p.volume),
        ("familia", encodeFamiliaRef p.familia),
        ("ativo", .bool p.ativo), ("created_at", .str p.created_at)]

def encodeProdutoSimple (p : ProdutoSimple) : JValue :=
  .obj [("id", .num p.id), ("nome", .str p.nome), ("peso", .num p.peso),
        ("volume", jnullable .num p.volume),
        ("familia_nome", .str p.familia_nome)]

def encodeProdutoPedido (p : ProdutoPedido) : JValue :=
  .obj [("id", .num p.id), ("produto", encodeProdutoSimple p.produto),
        ("quantidade", .num p.quantidade), ("peso_total", .num p.peso_total)]

def encodeUsuarioRef (u : UsuarioRef) : JValue :=
  .obj [("id", .num u.id), ("name", .str u.name), ("email", .str u.email)]

def encodePedido (p : Pedido) : JValue :=
  .obj [("id", .num p.id), ("usuario", jnullable encodeUsuarioRef p.usuario),
        ("nf", .num p.nf), ("observacao", jnullable .str p.observacao),
        ("dtpedido", .str p.dtpedido),
        ("latitude", .num p.latitude), ("longitude", .num p.longitude),
        ("created_at", .str p.created_at),
        ("itens", .arr (p.itens.map encodeProdutoPedido)),
        ("peso_total", .num p.peso_total), ("volume_total", .num p.volume_total),
        ("total_itens", .num p.total_itens)]

def encodePedidoSimple (p : PedidoSimple) : JValue :=
  .obj [("id", .num p.id), ("nf", .num p.nf), ("dtpedido", .str p.dtpedido),
        ("latitude", .num p.latitude), ("longitude", .num p.longitude),
        ("usuario_nome", jnullable .str p.usuario_nome),
        ("observacao", jnullable .str p.observacao)]

def encodeItemCreate (i : ItemCreate) : JValue :=
  .obj [("produto_id", .num i.produto_id), ("quantidade", .num i.quantidade)]

def encodePedidoCreatePayload (p : PedidoCreatePayload) : JValue :=
  .obj (optField "usuario_id" (jnullable .num) p.usuario_id ++
        [("nf", .num p.nf)] ++
        optField "observacao" (jnullable .str) p.observacao ++
        [("dtpedido", .str p.dtpedido),
         ("latitude", .num p.latitude), ("longitude", .num p.longitude),
         ("itens", .arr (p.itens.map encodeItemCreate))])

def encodeRotaCreatePayload (r : RotaCreatePayload) : JValue :=
  .obj ([("data_rota", .str r.data_rota),
         ("capacidade_max", .num r.capacidade_max)] ++
        optField "status" (fun s => .str s.toStr) r.status ++
        optField "pedidos_ids" (fun l => .arr (l.map .num)) r.pedidos_ids)

-- ## C2: percentual_entrega is an independent stored field, not enforced

/-- A `Rota` whose stored `percentual_entrega` (5) disagrees with the value
derived from its (empty) `pedidos` list (0). -/
def rotaInconsistente : Rota :=
  ⟨1, "2024-01-01", 100, .PLANEJADA, "", "", [], [], 0, 0, 0, 5⟩

/-- A delivered route-order assignment for the consistent example route. -/
def rotaPedidoEntregue : RotaPedido :=
  ⟨1, ⟨1, 1, "2024-01-01", 0, 0, none, none⟩, 1, true, some "2024-01-02"⟩

/-- A `Rota` whose stored `percentual_entrega` (100) agrees with the value
derived from its one delivered order. -/
def rotaConsistente : Rota :=
  ⟨2, "2024-01-01", 100, .EM_EXECUCAO, "", "", [rotaPedidoEntregue], [], 0, 1, 1, 100⟩

/-- C2 counterexample: the claim fails at `rotaInconsistente`, a representable
`Rota` value whose `percentual_entrega` field (5) is not the count of
`entregue` entries of `pedidos` divided by the length of `pedidos` times
100 (which is 0 here). -/
theorem percentual_entrega_not_forced :
    ¬ (rotaInconsistente.percentual_entrega =
        ((rotaInconsistente.pedidos.countP (·.entregue) : ℚ) /
          (rotaInconsistente.pedidos.length : ℚ)) * 100) := by
  norm_num [rotaInconsistente]

/-- C2 amended: the `Rota` type does not enforce the relation; `percentual_entrega`
is an independent stored field, so some `Rota` values satisfy
`percentual_entrega = pedidos_entregues / total_pedidos * 100` (with the
count of `entregue` entries over the length of `pedidos`) and others do not. -/
theorem percentual_entrega_unenforced :
    (∃ r : Rota, r.percentual_entrega =
        ((r.pedidos.countP (·.entregue) : ℚ) / (r.pedidos.length : ℚ)) * 100) ∧
    (∃ r : Rota, r.percentual_entrega ≠
        ((r.pedidos.countP (·.entregue) : ℚ) / (r.pedidos.length : ℚ)) * 100) :=
  ⟨⟨rotaConsistente, by norm_num [rotaConsistente, rotaPedidoEntregue, List.countP_cons]⟩,
   ⟨rotaInconsistente, by norm_num [rotaInconsistente]⟩⟩

-- ## C3: peso_total fields are independent stored fields, not enforced

/-- A product of weight 3 used in the C3 examples. -/
def produtoPeso3 : ProdutoSimple := ⟨1, "A", 3, none, "F"⟩

/-- An order line whose stored `peso_total` (7) disagrees with
`produto.peso * quantidade` (3 * 2 = 6). -/
def linhaInconsistente : ProdutoPedido := ⟨1, produtoPeso3, 2, 7⟩

/-- An order line whose stored `peso_total` (6) agrees with
`produto.peso * quantidade`. -/
def linhaConsistente : ProdutoPedido := ⟨2, produtoPeso3, 2, 6⟩

/-- A `Pedido` whose stored `peso_total` (6) is the sum of its lines. -/
def pedidoConsistente : Pedido :=
  ⟨1, none, 1, none, "2024-01-01", 0, 0, "", [linhaConsistente], 6, 0, 1⟩

/-- A `Pedido` whose stored `peso_total` (99) is not the sum of its lines (6). -/
def pedidoInconsistente : Pedido :=
  ⟨2, none, 1, none, "2024-01-01", 0, 0, "", [linhaConsistente], 99, 0, 1⟩

/-- C3 counterexample: the claim fails at `linhaInconsistente`, a representable
`ProdutoPedido` whose `peso_total` field (7) differs from
`produto.peso * quantidade` (6). -/
theorem peso_total_not_forced :
    ¬ (linhaInconsistente.peso_total =
        linhaInconsistente.produto.peso * linhaInconsistente.quantidade) := by
  norm_num [linhaInconsistente, produtoPeso3]

/-- C3 amended: the types do not enforce the weight equations; `peso_total` is
an independent stored field at each level, so consistent and inconsistent
values both exist for `ProdutoPedido` and `Pedido`; and `Rota.peso_total_pedidos`
cannot even be derived from the route's assigned orders, since the embedded
`PedidoSimple` carries no weight field at all. -/
theorem peso_total_unenforced :
    (∃ pp : ProdutoPedido, pp.peso_total = pp.produto.peso * pp.quantidade) ∧
    (∃ pp : ProdutoPedido, pp.peso_total ≠ pp.produto.peso * pp.quantidade) ∧
    (∃ p : Pedido, p.peso_total = (p.itens.map (·.peso_total)).sum) ∧
    (∃ p : Pedido, p.peso_total ≠ (p.itens.map (·.peso_total)).sum) ∧
    (∀ ps : PedidoSimple, "peso" ∉ (encodePedidoSimple ps).keys ∧
      "peso_total" ∉ (encodePedidoSimple ps).keys) :=
  ⟨⟨linhaConsistente, by norm_num [linhaConsistente, produtoPeso3]⟩,
   ⟨linhaInconsistente, by norm_num [linhaInconsistente, produtoPeso3]⟩,
   ⟨pedidoConsistente, by norm_num [pedidoConsistente, linhaConsistente]⟩,
   ⟨pedidoInconsistente, by norm_num [pedidoInconsistente, linhaConsistente]⟩,
   fun ps => by simp [encodePedidoSimple, JValue.keys]⟩

-- ## C4: the paginated envelope is uniform across the four entity types

/-- Modelled from the spec: the generic paginated list envelope
`\x7b results, count, next, previous \x7d` used uniformly for families,
products, orders and routes. -/
structure PaginatedEnvelope (T : Type) where
  results : List T
  count : ℚ
  next : Option String
  previous : Option String

def familiasEnvelope (x : APIGetFamiliasResponse) : PaginatedEnvelope Familia :=
  ⟨x.results, x.count, x.next, x.previous⟩

def produtosEnvelope (x : APIGetProdutosResponse) : PaginatedEnvelope Produto :=
  ⟨x.results, x.count, x.next, x.previous⟩

def pedidosEnvelope (x : APIGetPedidosResponse) : PaginatedEnvelope Pedido :=
  ⟨x.results, x.count, x.next, x.previous⟩

def rotasEnvelope (x : APIGetRotasResponse) : PaginatedEnvelope Rota :=
  ⟨x.results, x.count, x.next, x.previous⟩

/-- C4: each of the four list-response envelope types carries exactly the four
fields `results`, `count`, `next`, `previous` of the generic paginated
envelope, regardless of entity type: the field-for-field maps into
`PaginatedEnvelope` of the entity are bijections. -/
theorem envelopes_uniform :
    Function.Bijective familiasEnvelope ∧ Function.Bijective produtosEnvelope ∧
    Function.Bijective pedidosEnvelope ∧ Function.Bijective rotasEnvelope := by
  refine ⟨⟨fun a b h => ?_, fun y => ⟨⟨y.results, y.count, y.next, y.previous⟩, rfl⟩⟩,
          ⟨fun a b h => ?_, fun y => ⟨⟨y.results, y.count, y.next, y.previous⟩, rfl⟩⟩,
          ⟨fun a b h => ?_, fun y => ⟨⟨y.results, y.count, y.next, y.previous⟩, rfl⟩⟩,
          ⟨fun a b h => ?_, fun y => ⟨⟨y.results, y.count, y.next, y.previous⟩, rfl⟩⟩⟩
  · cases a; cases b; simpa [familiasEnvelope, PaginatedEnvelope.mk.injEq] using h
  · cases a; cases b; simpa [produtosEnvelope, PaginatedEnvelope.mk.injEq] using h
  · cases a; cases b; simpa [pedidosEnvelope, PaginatedEnvelope.mk.injEq] using h
  · cases a; cases b; simpa [rotasEnvelope, PaginatedEnvelope.mk.injEq] using h

-- ## C5: APIError.success is the literal false

/-- The data content of an `APIError` besides its constant `success` field. -/
def APIError.toPair (e : APIError) : Option String × Option String :=
  (e.detail, e.code)

/-- C5: every `APIError` has `success = false` (never `true`), and its only
other fields are the optional strings `detail` and `code`: forgetting the
constant `success` field is a bijection onto `Option String × Option String`. -/
theorem apiError_never_success :
    (∀ e : APIError, e.success.val = false ∧ e.success.val ≠ true) ∧
    Function.Bijective APIError.toPair := by
  refine ⟨fun e => ⟨e.success.property, by simp [e.success.property]⟩,
          fun a b h => ?_, fun y => ⟨⟨⟨false, rfl⟩, y.1, y.2⟩, rfl⟩⟩
  rcases a with ⟨⟨sa, ha⟩, da, ca⟩
  rcases b with ⟨⟨sb, hb⟩, db, cb⟩
  subst ha; subst hb
  simpa [APIError.toPair] using h

-- ## C6: sign-in and sign-up responses are structurally identical

def signInToSignUp (r : APISignInResponse) : APISignUpResponse :=
  ⟨r.user, r.access_token⟩

def signUpToSignIn (r : APISignUpResponse) : APISignInResponse :=
  ⟨r.user, r.access_token⟩

/-- C6: `APISignInResponse` and `APISignUpResponse` are structurally identical:
the field-for-field maps between them are mutually inverse and preserve both
fields, so any value of one type corresponds to a value of the other. -/
theorem signIn_signUp_identical :
    (∀ r : APISignInResponse, signUpToSignIn (signInToSignUp r) = r) ∧
    (∀ r : APISignUpResponse, signInToSignUp (signUpToSignIn r) = r) ∧
    (∀ r : APISignInResponse,
      (signInToSignUp r).user = r.user ∧
        (signInToSignUp r).access_token = r.access_token) :=
  ⟨fun _ => rfl, fun _ => rfl, fun _ => ⟨rfl, rfl⟩⟩

-- ## C7: creation payloads carry exactly the declared fields

/-- C7: the order-creation payload carries at most the seven declared fields
(in order), with `nf`, `dtpedido`, `latitude`, `longitude`, `itens` always
present (`usuario_id` and `observacao` optional); the route-creation payload
carries at most its four declared fields, with `data_rota` and
`capacidade_max` always present (`status` and `pedidos_ids` optional). -/
theorem create_payload_fields :
    (∀ p : PedidoCreatePayload,
      ((encodePedidoCreatePayload p).keys).Sublist
        ["usuario_id", "nf", "observacao", "dtpedido", "latitude", "longitude", "itens"] ∧
      "nf" ∈ (encodePedidoCreatePayload p).keys ∧
      "dtpedido" ∈ (encodePedidoCreatePayload p).keys ∧
      "latitude" ∈ (encodePedidoCreatePayload p).keys ∧
      "longitude" ∈ (encodePedidoCreatePayload p).keys ∧
      "itens" ∈ (encodePedidoCreatePayload p).keys) ∧
    (∀ r : RotaCreatePayload,
      ((encodeRotaCreatePayload r).keys).Sublist
        ["data_rota", "capacidade_max", "status", "pedidos_ids"] ∧
      "data_rota" ∈ (encodeRotaCreatePayload r).keys ∧
      "capacidade_max" ∈ (encodeRotaCreatePayload r).keys) := by
  constructor
  · rintro ⟨u, nf, o, d, la, lo, it⟩
    cases u <;> cases o <;>
      simp [encodePedidoCreatePayload, JValue.keys, optField]
  · rintro ⟨d, c, s, ids⟩
    cases s <;> cases ids <;>
      simp [encodeRotaCreatePayload, JValue.keys, optField]

-- ## C8: ProdutoSimple carries exactly five fields

/-- C8: `ProdutoSimple` carries exactly the five fields `id`, `nome`, `peso`,
`volume`, `familia_nome`, and in particular drops the `familia`, `ativo` and
`created_at` fields that the full `Produto` carries. -/
theorem produtoSimple_five_fields :
    (∀ p : ProdutoSimple,
      (encodeProdutoSimple p).keys = ["id", "nome", "peso", "volume", "familia_nome"]) ∧
    (∀ p : Produto,
      (encodeProduto p).keys =
        ["id", "nome", "peso", "volume", "familia", "ativo", "created_at"]) ∧
    (∀ p : ProdutoSimple,
      "familia" ∉ (encodeProdutoSimple p).keys ∧
      "ativo" ∉ (encodeProdutoSimple p).keys ∧
      "created_at" ∉ (encodeProdutoSimple p).keys) := by
  refine ⟨fun p => ?_, fun p => ?_, fun p => ?_⟩
  · simp [encodeProdutoSimple, JValue.keys]
  · simp [encodeProduto, JValue.keys]
  · simp [encodeProdutoSimple, JValue.keys]

-- ## C9: coordinates are required, non-nullable numbers in all order shapes

/-- C9: in every order representation — `Pedido`, `PedidoSimple` and
`PedidoCreatePayload` — `latitude` and `longitude` are required
non-nullable numbers: the encoded record always carries both keys, each
bound to a JSON number (never `null`, never absent). -/
theorem coords_always_present :
    (∀ p : Pedido,
      (encodePedido p).get "latitude" = some (.num p.latitude) ∧
      (encodePedido p).get "longitude" = some (.num p.longitude)) ∧
    (∀ p : PedidoSimple,
      (encodePedidoSimple p).get "latitude" = some (.num p.latitude) ∧
      (encodePedidoSimple p).get "longitude" = some (.num p.longitude)) ∧
    (∀ p : PedidoCreatePayload,
      (encodePedidoCreatePayload p).get "latitude" = some (.num p.latitude) ∧
      (encodePedidoCreatePayload p).get "longitude" = some (.num p.longitude)) := by
  refine ⟨fun p => ?_, fun p => ?_, fun p => ?_⟩
  · constructor <;> simp [encodePedido, JValue.get, List.lookup]
  · constructor <;> simp [encodePedidoSimple, JValue.get, List.lookup]
  · rcases p with ⟨u, nf, o, d, la, lo, it⟩
    cases u <;> cases o <;>
      simp [encodePedidoCreatePayload, JValue.get, List.lookup, optField]

-- ## C10: the optional status of a route-creation payload is enumerated

/-- C10: whenever the optional `status` field of a `RotaCreatePayload` is
present, it is one of exactly the three `RotaStatus` values, the same
enumeration as stored routes. -/
theorem rotaCreate_status_enumerated (p : RotaCreatePayload) (s : RotaStatus)
    (h : p.status = some s) :
    s = RotaStatus.PLANEJADA ∨ s = RotaStatus.EM_EXECUCAO ∨ s = RotaStatus.CONCLUIDA := by
  cases s <;> simp

/-- A concrete route-creation payload with a present `status` field. -/
def rotaPayloadPlanejada : RotaCreatePayload := ⟨"2024-01-01", 100, some .PLANEJADA, none⟩

/-- Witness for C10 at a concrete payload whose `status` is present. -/
theorem rotaCreate_status_enumerated_witness :
    rotaPayloadPlanejada.status = some RotaStatus.PLANEJADA ∧
    (RotaStatus.PLANEJADA = RotaStatus.PLANEJADA ∨
      RotaStatus.PLANEJADA = RotaStatus.EM_EXECUCAO ∨
      RotaStatus.PLANEJADA = RotaStatus.CONCLUIDA) :=
  ⟨rfl, rotaCreate_status_enumerated rotaPayloadPlanejada RotaStatus.PLANEJADA rfl⟩
